import Mathlib

/-!
Verification of the todo-server repository (src/todo-server/src/main.rs),
a read-only HTTP service over a two-table SQLite schema.

The Rust source is shallowly embedded: the database is an explicit value of
type `Db`, the two SQL SELECT queries become pure functions of that value,
`sqlx` failures are threaded through `Except`, and axum handlers become
functions from the pool state to an HTTP `Response` (status plus body bytes,
modelled as a `String`).
-/

namespace TodoServer

/-! ## Data model (main.rs lines 61-65 and 82-88)

The Rust struct `List` is called `ListRow` here only because `List` is the
Lean builtin list type; field names and order match the source. Rust `i64`
is modelled as `Int` (the source never overflows: ids come from the
database and are only compared and serialized). -/

structure ListRow where
  id : Int
  name : String
deriving DecidableEq

structure Todo where
  id : Int
  text : String
  checked : Bool
  list_id : Int
deriving DecidableEq

/-- The two-table database state behind the SQLite pool (schema of the
migration, tables `lists` and `todos`), as a row list per table. -/
structure Db where
  lists : List ListRow
  todos : List Todo
deriving DecidableEq

/-! ## SQL queries

`get_lists` runs `SELECT id, name FROM lists ORDER BY id` (main.rs 67-80);
`get_todos` runs
`SELECT id, text, checked, list_id FROM todos WHERE list_id = ? ORDER BY id`
(main.rs 90-105). A SELECT with `ORDER BY id` over a row multiset is any
reordering of the matching rows that is ascending in `id`; `mergeSort` by
`id` is such a reordering. -/

/-- The `ORDER BY id` comparison on `lists` rows. -/
def leListRow (a b : ListRow) : Prop := a.id ≤ b.id

instance : DecidableRel leListRow :=
  fun a b => inferInstanceAs (Decidable (a.id ≤ b.id))

instance : IsTotal ListRow leListRow :=
  ⟨fun a b => Int.le_total a.id b.id⟩

instance : IsTrans ListRow leListRow :=
  ⟨fun _ _ _ h1 h2 => le_trans h1 h2⟩

/-- The `ORDER BY id` comparison on `todos` rows. -/
def leTodo (a b : Todo) : Prop := a.id ≤ b.id

instance : DecidableRel leTodo :=
  fun a b => inferInstanceAs (Decidable (a.id ≤ b.id))

instance : IsTotal Todo leTodo :=
  ⟨fun a b => Int.le_total a.id b.id⟩

instance : IsTrans Todo leTodo :=
  ⟨fun _ _ _ h1 h2 => le_trans h1 h2⟩

def listsQuery (db : Db) : List ListRow :=
  db.lists.insertionSort leListRow

def todosQuery (db : Db) (list_id : Int) : List Todo :=
  (db.todos.filter (fun t => t.list_id == list_id)).insertionSort leTodo

/-- The sqlx connection pool as seen by one request: either the database is
reachable (with its current contents), or data access fails with an
underlying error whose display text is `e` (`anyhow::Error` is modelled by
that text). -/
inductive Pool where
  | healthy : Db → Pool
  | failed : String → Pool
deriving DecidableEq

/-- main.rs 67-80: `get_lists` returns `Result<Vec<List>>`; `fetch_all`
either yields the query rows or the database error. -/
def get_lists : Pool → Except String (List ListRow)
  | .healthy db => .ok (listsQuery db)
  | .failed e => .error e

/-- main.rs 90-105: `get_todos` returns `Result<Vec<Todo>>`. -/
def get_todos : Pool → Int → Except String (List Todo)
  | .healthy db, list_id => .ok (todosQuery db list_id)
  | .failed e, _ => .error e

/-! ## JSON serialization (serde_json via axum `Json`)

Compact output: no whitespace, struct fields in declaration order, strings
escaped as serde_json does. -/

def hexDigitChar (n : Nat) : Char :=
  match n with
  | 0 => '0' | 1 => '1' | 2 => '2' | 3 => '3' | 4 => '4' | 5 => '5'
  | 6 => '6' | 7 => '7' | 8 => '8' | 9 => '9' | 10 => 'a' | 11 => 'b'
  | 12 => 'c' | 13 => 'd' | 14 => 'e' | _ => 'f'

def escapeJsonChar (c : Char) : String :=
  if c = '"' then "\\\""
  else if c = '\\' then "\\\\"
  else if c = Char.ofNat 8 then "\\b"
  else if c = Char.ofNat 9 then "\\t"
  else if c = Char.ofNat 10 then "\\n"
  else if c = Char.ofNat 12 then "\\f"
  else if c = Char.ofNat 13 then "\\r"
  else if c.toNat < 32 then
    "\\u00" ++ String.mk [hexDigitChar (c.toNat / 16), hexDigitChar (c.toNat % 16)]
  else String.singleton c

def renderJsonString (s : String) : String :=
  "\"" ++ String.join (s.data.map escapeJsonChar) ++ "\""

def renderBool (b : Bool) : String :=
  if b then "true" else "false"

def renderInt (i : Int) : String :=
  toString i

/-- serde_json output for the `List` struct: `{"id":...,"name":...}`. -/
def renderListRowJson (l : ListRow) : String :=
  "\x7b\"id\":" ++ renderInt l.id ++ ",\"name\":" ++ renderJsonString l.name ++ "\x7d"

/-- serde_json output for the `Todo` struct:
`{"id":...,"text":...,"checked":...,"list_id":...}`. -/
def renderTodoJson (t : Todo) : String :=
  "\x7b\"id\":" ++ renderInt t.id ++ ",\"text\":" ++ renderJsonString t.text ++
    ",\"checked\":" ++ renderBool t.checked ++ ",\"list_id\":" ++ renderInt t.list_id ++ "\x7d"

def renderJsonArray (items : List String) : String :=
  "[" ++ String.intercalate "," items ++ "]"

/-! ## Responses, AppError, handlers (main.rs 48-59 and 107-131) -/

/-- An HTTP response: status code and body bytes (as a string). -/
structure Response where
  status : Nat
  body : String
deriving DecidableEq

/-- main.rs 107-109: the one-variant handler error type; the wrapped
`anyhow::Error` is modelled by its display text. -/
inductive AppError where
  | InternalServerError : String → AppError
deriving DecidableEq

/-- The serde_json rendering of `json!({"error": "Something went wrong"})`. -/
def somethingWentWrongBody : String :=
  "\x7b\"error\":\"Something went wrong\"\x7d"

/-- main.rs 117-131: every `AppError` becomes a 500 with the fixed JSON
body; the wrapped error is discarded (`_inner`). -/
def AppError.into_response : AppError → Response
  | .InternalServerError _ => ⟨500, somethingWentWrongBody⟩

/-- main.rs 48-51: `handle_get_lists` serializes the rows on success and
converts the error through `From<anyhow::Error>` + `into_response` on
failure (the `?` operator). -/
def handle_get_lists (pool : Pool) : Response :=
  match get_lists pool with
  | .ok lists => ⟨200, renderJsonArray (lists.map renderListRowJson)⟩
  | .error e => (AppError.InternalServerError e).into_response

/-- main.rs 53-59: `handle_get_todos`, after the router has parsed the
path parameter. -/
def handle_get_todos (pool : Pool) (list_id : Int) : Response :=
  match get_todos pool list_id with
  | .ok todos => ⟨200, renderJsonArray (todos.map renderTodoJson)⟩
  | .error e => (AppError.InternalServerError e).into_response

/-! ## Path-parameter parsing and routing (main.rs 41-46 and 53-59)

axum extracts `Path(list_id): Path<i32>` by running Rust's
`str::parse::<i32>()` on the `:id` segment: an optional sign (`+` or `-`)
followed by one or more ASCII digits, rejected on overflow of the 32-bit
signed range. -/

def digitsToNat (cs : List Char) : Nat :=
  cs.foldl (fun a c => a * 10 + (c.toNat - 48)) 0

def i32Min : Int := -(2 ^ 31)

def i32Max : Int := 2 ^ 31 - 1

def parseDigitsBounded (cs : List Char) (sign : Int) : Option Int :=
  if cs ≠ [] ∧ cs.all (fun c => c.isDigit) then
    let v : Int := sign * (digitsToNat cs : Int)
    if i32Min ≤ v ∧ v ≤ i32Max then some v else none
  else none

/-- Rust `i32::from_str` on the raw path segment. -/
def parseI32 (s : String) : Option Int :=
  match s.data with
  | [] => none
  | c :: cs =>
    if c = '+' then parseDigitsBounded cs 1
    else if c = '-' then parseDigitsBounded cs (-1)
    else parseDigitsBounded (c :: cs) 1

/-- Modelled from the spec: the 400 Bad Request that axum's `Path`
rejection produces when the segment does not parse is framework code, not
part of this repository; the spec fixes only the status ("framework-default
behavior to preserve"), so the body carries the framework's default
message. -/
def pathRejection : Response :=
  ⟨400, "Bad Request"⟩

/-- The route `GET /lists/:id/todos` (main.rs 44): parse the segment as
`i32`, then run the handler; on parse failure the rejection response is
returned without invoking the handler. -/
def todosRoute (pool : Pool) (idSegment : String) : Response :=
  match parseI32 idSegment with
  | some id => handle_get_todos pool id
  | none => pathRejection

/-- The route `GET /lists` (main.rs 43). -/
def listsRoute (pool : Pool) : Response :=
  handle_get_lists pool

/-! ## One request-response cycle with explicit state

Both SQL statements are SELECTs; serving a request therefore returns the
pool — and the database contents behind it — exactly as they were. -/

def serveListsRoute (pool : Pool) : Response × Pool :=
  (listsRoute pool, pool)

def serveTodosRoute (pool : Pool) (idSegment : String) : Response × Pool :=
  (todosRoute pool idSegment, pool)

/-! ## Decimal printing (to state "the path segment is integer id") -/

def digitChar (n : Nat) : Char :=
  match n with
  | 0 => '0' | 1 => '1' | 2 => '2' | 3 => '3' | 4 => '4'
  | 5 => '5' | 6 => '6' | 7 => '7' | 8 => '8' | _ => '9'

/-- Most-significant-first decimal digits of `n`; `fuel` only forces
structural recursion and any `fuel > n` gives the digits. -/
def natDigitsAux : Nat → Nat → List Char
  | 0, _ => []
  | fuel + 1, n =>
    if n < 10 then [digitChar n]
    else natDigitsAux fuel (n / 10) ++ [digitChar (n % 10)]

def natDigits (n : Nat) : List Char :=
  natDigitsAux (n + 1) n

/-- The decimal string for an integer, as Rust `Display` prints it. -/
def intToDecimal (i : Int) : String :=
  if i < 0 then "-" ++ String.mk (natDigits i.natAbs)
  else String.mk (natDigits i.natAbs)

/-! ## Process startup (main.rs 17-39)

`main` reads `DATABASE_URL`, connects, migrates, initializes logging,
builds the router, then binds the listener on 127.0.0.1:3000 and serves.
Every fallible step uses `?`, so a failure returns `Err` from `main`
(process exit code non-zero) and no later step runs. The environment
provides the variable and decides whether connect/migrate succeed. -/

structure Env where
  database_url : Option String
  connect_ok : Bool
  migrate_ok : Bool

inductive StartupStep where
  | readEnv | connect | migrate | initLogging | bindListener | serve
deriving DecidableEq

/-- The startup sequence of `main`: first component is `true` iff `main`
returns `Ok` (exit code 0), second is the list of steps that completed, in
order. -/
def mainStartup (env : Env) : Bool × List StartupStep :=
  match env.database_url with
  | none => (false, [])
  | some _ =>
    if env.connect_ok then
      if env.migrate_ok then
        (true, [StartupStep.readEnv, StartupStep.connect, StartupStep.migrate,
                StartupStep.initLogging, StartupStep.bindListener, StartupStep.serve])
      else (false, [StartupStep.readEnv, StartupStep.connect])
    else (false, [StartupStep.readEnv])

/-! ## Migrations -/

/-- Modelled from the spec: `sqlx::migrate!()` (main.rs 20) embeds the
repository's `migrations` directory, which is not among the provided
sources. Per the spec the migration creates the two tables `lists` and
`todos`, and applying it is a no-op on a database that already has them.
A schema is modelled as the list of table names present. -/
def migrationTables : List String :=
  ["lists", "todos"]

/-- Create a table if the schema does not already have it (the effect of one
`CREATE TABLE IF NOT EXISTS` / already-applied-migration check). -/
def createTableIfAbsent (s : List String) (t : String) : List String :=
  if t ∈ s then s else s ++ [t]

/-- Modelled from the spec: apply the migration — create each table of the
migration that the schema does not already have. -/
def applyMigrations (schema : List String) : List String :=
  migrationTables.foldl createTableIfAbsent schema

/-! ## Helper lemmas: decimal digits round-trip -/

theorem digitChar_isDigit {n : Nat} (h : n < 10) : (digitChar n).isDigit = true := by
  interval_cases n <;> decide

theorem digitChar_toNat {n : Nat} (h : n < 10) : (digitChar n).toNat = 48 + n := by
  interval_cases n <;> decide

theorem digitsToNat_append (cs : List Char) (c : Char) :
    digitsToNat (cs ++ [c]) = digitsToNat cs * 10 + (c.toNat - 48) := by
  simp [digitsToNat, List.foldl_append]

theorem natDigitsAux_spec : ∀ fuel n, n < fuel →
    natDigitsAux fuel n ≠ [] ∧ (natDigitsAux fuel n).all Char.isDigit = true ∧
      digitsToNat (natDigitsAux fuel n) = n := by
  intro fuel
  induction fuel with
  | zero => intro n h; omega
  | succ f ih =>
    intro n h
    by_cases h10 : n < 10
    · refine ⟨by simp [natDigitsAux, h10], ?_, ?_⟩
      · simp [natDigitsAux, h10, digitChar_isDigit h10]
      · simp only [natDigitsAux, if_pos h10]
        have := digitChar_toNat h10
        simp [digitsToNat]
        omega
    · have hdiv : n / 10 < f := by omega
      obtain ⟨h1, h2, h3⟩ := ih (n / 10) hdiv
      have hm : n % 10 < 10 := Nat.mod_lt _ (by omega)
      refine ⟨by simp [natDigitsAux, h10], ?_, ?_⟩
      · simp only [natDigitsAux, if_neg h10, List.all_append]
        simp [h2, digitChar_isDigit hm]
      · simp only [natDigitsAux, if_neg h10, digitsToNat_append, h3]
        have := digitChar_toNat hm
        omega

theorem natDigits_ne_nil (n : Nat) : natDigits n ≠ [] :=
  (natDigitsAux_spec (n + 1) n (by omega)).1

theorem natDigits_all_digits (n : Nat) : (natDigits n).all Char.isDigit = true :=
  (natDigitsAux_spec (n + 1) n (by omega)).2.1

theorem digitsToNat_natDigits (n : Nat) : digitsToNat (natDigits n) = n :=
  (natDigitsAux_spec (n + 1) n (by omega)).2.2

theorem isDigit_ne_plus {c : Char} (h : c.isDigit = true) : c ≠ '+' := by
  rintro rfl; exact absurd h (by decide)

theorem isDigit_ne_minus {c : Char} (h : c.isDigit = true) : c ≠ '-' := by
  rintro rfl; exact absurd h (by decide)

theorem parseDigitsBounded_natDigits (n : Nat) (sign : Int)
    (h : i32Min ≤ sign * n ∧ sign * n ≤ i32Max) :
    parseDigitsBounded (natDigits n) sign = some (sign * n) := by
  unfold parseDigitsBounded
  rw [if_pos ⟨natDigits_ne_nil n, natDigits_all_digits n⟩]
  simp only [digitsToNat_natDigits]
  rw [if_pos h]

theorem parseI32_cons {c : Char} {cs : List Char} {s : String} (hs : s.data = c :: cs) :
    parseI32 s = if c = '+' then parseDigitsBounded cs 1
      else if c = '-' then parseDigitsBounded cs (-1)
      else parseDigitsBounded (c :: cs) 1 := by
  unfold parseI32
  rw [hs]

/-- Round-trip: the decimal form of any integer in the `i32` range parses
back to that integer. -/
theorem parseI32_intToDecimal {i : Int} (h : i32Min ≤ i ∧ i ≤ i32Max) :
    parseI32 (intToDecimal i) = some i := by
  by_cases hneg : i < 0
  · have hdata : (intToDecimal i).data = '-' :: natDigits i.natAbs := by
      simp [intToDecimal, if_pos hneg, String.data_append]
    rw [parseI32_cons hdata]
    rw [if_neg (by decide), if_pos rfl]
    have habs : (-1 : Int) * (i.natAbs : Int) = i := by omega
    rw [parseDigitsBounded_natDigits i.natAbs (-1) (by rw [habs]; exact h), habs]
  · obtain ⟨c, cs, hd⟩ : ∃ c cs, natDigits i.natAbs = c :: cs := by
      cases hnd : natDigits i.natAbs with
      | nil => exact absurd hnd (natDigits_ne_nil _)
      | cons c cs => exact ⟨c, cs, rfl⟩
    have hdigit : c.isDigit = true := by
      have := natDigits_all_digits i.natAbs
      rw [hd, List.all_cons, Bool.and_eq_true] at this
      exact this.1
    have hdata : (intToDecimal i).data = c :: cs := by
      simp [intToDecimal, if_neg hneg]
      exact hd ▸ rfl
    rw [parseI32_cons hdata]
    rw [if_neg (isDigit_ne_plus hdigit), if_neg (isDigit_ne_minus hdigit), ← hd]
    have habs : (1 : Int) * (i.natAbs : Int) = i := by omega
    rw [parseDigitsBounded_natDigits i.natAbs 1 (by rw [habs]; exact h), habs]

/-! ## Helper lemmas: handlers, ordering, migrations -/

theorem handle_get_todos_status (pool : Pool) (id : Int) :
    (handle_get_todos pool id).status = 200 ∨ (handle_get_todos pool id).status = 500 := by
  cases pool <;> simp [handle_get_todos, get_todos, AppError.into_response]

/-- A list sorted by non-strict id order whose ids are distinct is sorted by
strict id order. -/
theorem sorted_lt_of_sorted_le_nodup {l : List ListRow}
    (hs : l.Sorted leListRow) (hn : (l.map (fun x => x.id)).Nodup) :
    l.Sorted (fun a b => a.id < b.id) := by
  have hne : l.Pairwise (fun a b => a.id ≠ b.id) := List.pairwise_map.mp hn
  exact (List.Pairwise.and hs hne).imp (fun h => lt_of_le_of_ne h.1 h.2)

instance : IsAntisymm ListRow (fun a b => a.id < b.id) :=
  ⟨fun _ _ h1 h2 => absurd (lt_trans h1 h2) (lt_irrefl _)⟩

/-- The rows returned for two table states holding the same rows (in any
order) are identical, provided ids are distinct (the primary-key
invariant). -/
theorem listsQuery_eq_of_perm {db db' : Db} (hperm : db.lists.Perm db'.lists)
    (hnodup : (db.lists.map (fun l => l.id)).Nodup) :
    listsQuery db = listsQuery db' := by
  have hq : (listsQuery db).Perm db.lists := List.perm_insertionSort _ _
  have hq' : (listsQuery db').Perm db'.lists := List.perm_insertionSort _ _
  have hnodup' : (db'.lists.map (fun l => l.id)).Nodup :=
    ((hperm.map (fun l => l.id)).nodup_iff).mp hnodup
  apply List.eq_of_perm_of_sorted (r := fun a b : ListRow => a.id < b.id)
  · exact hq.trans (hperm.trans hq'.symm)
  · exact sorted_lt_of_sorted_le_nodup (List.sorted_insertionSort _ _)
      (((hq.map (fun l => l.id)).nodup_iff).mpr hnodup)
  · exact sorted_lt_of_sorted_le_nodup (List.sorted_insertionSort _ _)
      (((hq'.map (fun l => l.id)).nodup_iff).mpr hnodup')

theorem mem_createTableIfAbsent_self (s : List String) (t : String) :
    t ∈ createTableIfAbsent s t := by
  unfold createTableIfAbsent
  split
  · assumption
  · simp

theorem mem_createTableIfAbsent_of_mem {s : List String} {a : String} (t : String)
    (h : a ∈ s) : a ∈ createTableIfAbsent s t := by
  unfold createTableIfAbsent
  split
  · exact h
  · simp [h]

theorem createTableIfAbsent_of_mem {s : List String} {t : String} (h : t ∈ s) :
    createTableIfAbsent s t = s :=
  if_pos h

theorem applyMigrations_eq (s : List String) :
    applyMigrations s = createTableIfAbsent (createTableIfAbsent s "lists") "todos" :=
  rfl

theorem applyMigrations_of_mem {s : List String} (hl : "lists" ∈ s) (ht : "todos" ∈ s) :
    applyMigrations s = s := by
  rw [applyMigrations_eq, createTableIfAbsent_of_mem hl, createTableIfAbsent_of_mem ht]

theorem mem_applyMigrations (s : List String) :
    "lists" ∈ applyMigrations s ∧ "todos" ∈ applyMigrations s := by
  rw [applyMigrations_eq]
  exact ⟨mem_createTableIfAbsent_of_mem _ (mem_createTableIfAbsent_self s "lists"),
    mem_createTableIfAbsent_self _ "todos"⟩

/-! ## Claim theorems -/

/-- C1 counterexample: `2147483648` is a 64-bit integer (well within the
signed 64-bit range), yet `GET /lists/2147483648/todos` is rejected with
400 instead of parsing and invoking the handler: the route parses the
segment as a 32-bit `i32`, not as a 64-bit integer. -/
theorem c1_counterexample :
    intToDecimal 2147483648 = "2147483648" ∧
    (-(2 ^ 63) ≤ (2147483648 : Int) ∧ (2147483648 : Int) ≤ 2 ^ 63 - 1) ∧
    todosRoute (Pool.healthy ⟨[], []⟩) "2147483648" = pathRejection ∧
    (todosRoute (Pool.healthy ⟨[], []⟩) "2147483648").status = 400 := by
  decide

/-- C1 (amended): for every 32-bit signed integer id, a request
`GET /lists/{id}/todos` parses `{id}` successfully and invokes the todos
handler (and through it `get_todos`) with that id; a 400 Bad Request is
produced exactly when `{id}` does not parse as a 32-bit signed integer. -/
theorem c1_path_param (pool : Pool) (id : Int) (s : String)
    (h : i32Min ≤ id ∧ id ≤ i32Max) :
    todosRoute pool (intToDecimal id) = handle_get_todos pool id ∧
    (parseI32 s = none ↔ (todosRoute pool s).status = 400) := by
  constructor
  · unfold todosRoute
    rw [parseI32_intToDecimal h]
  · constructor
    · intro hp
      unfold todosRoute
      rw [hp]
      rfl
    · intro hst
      cases hp : parseI32 s with
      | none => rfl
      | some i =>
        exfalso
        have h400 : (handle_get_todos pool i).status = 400 := by
          unfold todosRoute at hst
          rw [hp] at hst
          exact hst
        rcases handle_get_todos_status pool i with h2 | h2 <;> omega

/-- C1 witness: id 5 parses and dispatches; "abc" does not parse and gets
400. -/
theorem c1_path_param_witness :
    (i32Min ≤ (5 : Int) ∧ (5 : Int) ≤ i32Max) ∧
    (todosRoute (Pool.healthy ⟨[], []⟩) (intToDecimal 5) =
        handle_get_todos (Pool.healthy ⟨[], []⟩) 5 ∧
      (parseI32 "abc" = none ↔
        (todosRoute (Pool.healthy ⟨[], []⟩) "abc").status = 400)) :=
  ⟨by decide, c1_path_param (Pool.healthy ⟨[], []⟩) 5 "abc" (by decide)⟩

/-- C2: when data access fails, both endpoints respond 500 with body
exactly `{"error":"Something went wrong"}`, and the response is the same
whatever the underlying error detail is — so that detail never appears in
the response. -/
theorem c2_error_envelope (e e' : String) (id : Int) (s : String)
    (hs : parseI32 s ≠ none) :
    listsRoute (Pool.failed e) = ⟨500, "\x7b\"error\":\"Something went wrong\"\x7d"⟩ ∧
    handle_get_todos (Pool.failed e) id =
      ⟨500, "\x7b\"error\":\"Something went wrong\"\x7d"⟩ ∧
    todosRoute (Pool.failed e) s = ⟨500, "\x7b\"error\":\"Something went wrong\"\x7d"⟩ ∧
    listsRoute (Pool.failed e) = listsRoute (Pool.failed e') ∧
    todosRoute (Pool.failed e) s = todosRoute (Pool.failed e') s := by
  have hroute : ∀ e'', todosRoute (Pool.failed e'') s =
      ⟨500, "\x7b\"error\":\"Something went wrong\"\x7d"⟩ := by
    intro e''
    unfold todosRoute
    cases hp : parseI32 s with
    | none => exact absurd hp hs
    | some i => rfl
  exact ⟨rfl, rfl, hroute e, rfl, (hroute e).trans (hroute e').symm⟩

/-- C2 witness: a concrete connectivity failure on both endpoints. -/
theorem c2_error_envelope_witness :
    parseI32 "7" ≠ none ∧
    (listsRoute (Pool.failed "connection refused") =
        ⟨500, "\x7b\"error\":\"Something went wrong\"\x7d"⟩ ∧
      handle_get_todos (Pool.failed "connection refused") 7 =
        ⟨500, "\x7b\"error\":\"Something went wrong\"\x7d"⟩ ∧
      todosRoute (Pool.failed "connection refused") "7" =
        ⟨500, "\x7b\"error\":\"Something went wrong\"\x7d"⟩ ∧
      listsRoute (Pool.failed "connection refused") = listsRoute (Pool.failed "io error") ∧
      todosRoute (Pool.failed "connection refused") "7" =
        todosRoute (Pool.failed "io error") "7") :=
  ⟨by decide, c2_error_envelope "connection refused" "io error" 7 "7" (by decide)⟩

/-- C3: `get_todos` on a reachable database returns (as a successful,
non-error result) exactly the todos rows whose `list_id` equals the given
id, in ascending id order; the result is empty exactly when no row
matches, and does not depend on the `lists` table at all (so it is the
same whether or not a list with that id exists). -/
theorem c3_todos_for_list (db : Db) (listId : Int) :
    get_todos (Pool.healthy db) listId = Except.ok (todosQuery db listId) ∧
    (todosQuery db listId).Perm (db.todos.filter (fun t => t.list_id == listId)) ∧
    (todosQuery db listId).Sorted leTodo ∧
    (∀ t, t ∈ todosQuery db listId ↔ t ∈ db.todos ∧ t.list_id = listId) ∧
    (∀ ls ls' : List ListRow,
      todosQuery ⟨ls, db.todos⟩ listId = todosQuery ⟨ls', db.todos⟩ listId) ∧
    (todosQuery db listId = [] ↔ db.todos.filter (fun t => t.list_id == listId) = []) := by
  have hperm : (todosQuery db listId).Perm
      (db.todos.filter (fun t => t.list_id == listId)) := List.perm_insertionSort _ _
  refine ⟨rfl, hperm, List.sorted_insertionSort _ _, ?_, fun _ _ => rfl, ?_⟩
  · intro t
    unfold todosQuery
    rw [List.mem_insertionSort, List.mem_filter]
    simp
  · rw [← List.length_eq_zero, ← List.length_eq_zero, hperm.length_eq]

/-- C4: `get_lists` on a reachable database returns all rows of the
`lists` table in ascending id order — the same rows for any insertion
order (given the primary-key distinctness of ids) — and `GET /lists`
serializes them as a JSON array in exactly that order. -/
theorem c4_all_lists_ordered (db db' : Db)
    (hperm : db.lists.Perm db'.lists)
    (hnodup : (db.lists.map (fun l => l.id)).Nodup) :
    (listsQuery db).Perm db.lists ∧
    (listsQuery db).Sorted leListRow ∧
    listsQuery db = listsQuery db' ∧
    get_lists (Pool.healthy db) = Except.ok (listsQuery db) ∧
    listsRoute (Pool.healthy db) =
      ⟨200, renderJsonArray ((listsQuery db).map renderListRowJson)⟩ :=
  ⟨List.perm_insertionSort _ _, List.sorted_insertionSort _ _,
    listsQuery_eq_of_perm hperm hnodup, rfl, rfl⟩

/-- C4 witness: two insertion orders of the same two rows. -/
theorem c4_all_lists_ordered_witness :
    ((([⟨2, "b"⟩, ⟨1, "a"⟩] : List ListRow).Perm [⟨1, "a"⟩, ⟨2, "b"⟩]) ∧
      (([⟨2, "b"⟩, ⟨1, "a"⟩] : List ListRow).map (fun l => l.id)).Nodup) ∧
    ((listsQuery ⟨[⟨2, "b"⟩, ⟨1, "a"⟩], []⟩).Perm [⟨2, "b"⟩, ⟨1, "a"⟩] ∧
      (listsQuery ⟨[⟨2, "b"⟩, ⟨1, "a"⟩], []⟩).Sorted leListRow ∧
      listsQuery ⟨[⟨2, "b"⟩, ⟨1, "a"⟩], []⟩ = listsQuery ⟨[⟨1, "a"⟩, ⟨2, "b"⟩], []⟩ ∧
      get_lists (Pool.healthy ⟨[⟨2, "b"⟩, ⟨1, "a"⟩], []⟩) =
        Except.ok (listsQuery ⟨[⟨2, "b"⟩, ⟨1, "a"⟩], []⟩) ∧
      listsRoute (Pool.healthy ⟨[⟨2, "b"⟩, ⟨1, "a"⟩], []⟩) =
        ⟨200, renderJsonArray
          ((listsQuery ⟨[⟨2, "b"⟩, ⟨1, "a"⟩], []⟩).map renderListRowJson)⟩) :=
  ⟨⟨by decide, by decide⟩,
    c4_all_lists_ordered ⟨[⟨2, "b"⟩, ⟨1, "a"⟩], []⟩ ⟨[⟨1, "a"⟩, ⟨2, "b"⟩], []⟩
      (by decide) (by decide)⟩

/-- C5: when the `lists` table is empty, `GET /lists` responds 200 OK with
body exactly `[]`, whatever the `todos` table holds. -/
theorem c5_empty_lists (ts : List Todo) :
    listsRoute (Pool.healthy ⟨[], ts⟩) = ⟨200, "[]"⟩ :=
  rfl

/-- C6: with no intervening writes, serving the same GET request twice
yields byte-identical bodies: the handlers are functions of the pool state
and the request, and serving returns the pool state unchanged. -/
theorem c6_idempotent_reads (pool : Pool) (seg : String) :
    (serveListsRoute (serveListsRoute pool).2).1.body = (serveListsRoute pool).1.body ∧
    (serveTodosRoute (serveTodosRoute pool seg).2 seg).1.body =
      (serveTodosRoute pool seg).1.body :=
  ⟨rfl, rfl⟩

/-- C7: no request handler modifies the database: after serving any
`GET /lists` or `GET /lists/{id}/todos` request the pool — and hence the
contents of the `lists` and `todos` tables — is exactly as before. -/
theorem c7_no_writes (db : Db) (pool : Pool) (seg : String) :
    (serveListsRoute pool).2 = pool ∧
    (serveTodosRoute pool seg).2 = pool ∧
    (serveListsRoute (Pool.healthy db)).2 = Pool.healthy db ∧
    (serveTodosRoute (Pool.healthy db) seg).2 = Pool.healthy db :=
  ⟨rfl, rfl, rfl, rfl⟩

/-- C8: if `DATABASE_URL` is absent, or the connection cannot be opened,
or migration fails, `main` returns an error (non-zero process exit) and
neither binds the listener nor serves. -/
theorem c8_startup_failures_fatal (env : Env)
    (h : env.database_url = none ∨ env.connect_ok = false ∨ env.migrate_ok = false) :
    (mainStartup env).1 = false ∧
    StartupStep.bindListener ∉ (mainStartup env).2 ∧
    StartupStep.serve ∉ (mainStartup env).2 := by
  obtain ⟨url, cok, mok⟩ := env
  rcases url with _ | u <;> rcases cok <;> rcases mok <;> simp_all [mainStartup]

/-- C8 witness: missing `DATABASE_URL`. -/
theorem c8_startup_failures_fatal_witness :
    ((Env.mk none true true).database_url = none ∨
      (Env.mk none true true).connect_ok = false ∨
      (Env.mk none true true).migrate_ok = false) ∧
    ((mainStartup (Env.mk none true true)).1 = false ∧
      StartupStep.bindListener ∉ (mainStartup (Env.mk none true true)).2 ∧
      StartupStep.serve ∉ (mainStartup (Env.mk none true true)).2) :=
  ⟨by decide, c8_startup_failures_fatal (Env.mk none true true) (by decide)⟩

/-- C9: migration application is idempotent — running it on an
already-migrated schema (one that has both tables) is a no-op, and running
it on an empty schema creates exactly the two-table schema. -/
theorem c9_migration_idempotent (s : List String) :
    applyMigrations (applyMigrations s) = applyMigrations s ∧
    applyMigrations [] = migrationTables ∧
    (("lists" ∈ s ∧ "todos" ∈ s) → applyMigrations s = s) := by
  refine ⟨?_, by decide, fun h => applyMigrations_of_mem h.1 h.2⟩
  obtain ⟨hl, ht⟩ := mem_applyMigrations s
  exact applyMigrations_of_mem hl ht

/-- C9 witness: the migrated schema is a fixed point. -/
theorem c9_migration_idempotent_witness :
    applyMigrations (applyMigrations ["lists", "todos"]) =
      applyMigrations ["lists", "todos"] ∧
    applyMigrations [] = migrationTables ∧
    applyMigrations ["lists", "todos"] = ["lists", "todos"] :=
  ⟨(c9_migration_idempotent ["lists", "todos"]).1,
    (c9_migration_idempotent ["lists", "todos"]).2.1,
    (c9_migration_idempotent ["lists", "todos"]).2.2 (by decide)⟩

/-- C10: every negative id representable in 32 bits is accepted by the
router: `GET /lists/{id}/todos` responds 200 OK with the JSON array of the
todos whose `list_id` equals that negative id (not a 400). -/
theorem c10_negative_id_accepted (db : Db) (id : Int)
    (h : i32Min ≤ id ∧ id < 0) :
    todosRoute (Pool.healthy db) (intToDecimal id) =
      ⟨200, renderJsonArray ((todosQuery db id).map renderTodoJson)⟩ ∧
    (todosRoute (Pool.healthy db) (intToDecimal id)).status = 200 := by
  have hp : parseI32 (intToDecimal id) = some id := by
    apply parseI32_intToDecimal
    unfold i32Min i32Max at *
    omega
  have hr : todosRoute (Pool.healthy db) (intToDecimal id) =
      ⟨200, renderJsonArray ((todosQuery db id).map renderTodoJson)⟩ := by
    unfold todosRoute
    rw [hp]
    rfl
  exact ⟨hr, by rw [hr]⟩

/-- C10 witness: id -1 on an empty database. -/
theorem c10_negative_id_accepted_witness :
    (i32Min ≤ (-1 : Int) ∧ (-1 : Int) < 0) ∧
    (todosRoute (Pool.healthy ⟨[], []⟩) (intToDecimal (-1)) =
        ⟨200, renderJsonArray ((todosQuery ⟨[], []⟩ (-1)).map renderTodoJson)⟩ ∧
      (todosRoute (Pool.healthy ⟨[], []⟩) (intToDecimal (-1))).status = 200) :=
  ⟨by decide, c10_negative_id_accepted ⟨[], []⟩ (-1) (by decide)⟩

end TodoServer
